import Mathlib

/-!
Shallow embedding of the Uchet debt-ledger web application
(`src/auth.py`, `src/models.py`, `src/main.py`) and proofs about the
claims of its specification.

Modelling conventions:
* SQLAlchemy rows become Lean structures; the database session becomes an
  explicit `DB` value (lists of rows plus autoincrement counters that mirror
  the integer primary keys).
* Python `float` amounts become `ℚ` (the amounts in the spec's examples are
  exactly representable, and no claim concerns rounding).
* `datetime` timestamps become `Nat` seconds.
* The itsdangerous `URLSafeTimedSerializer` is modelled structurally: a token
  is its parsed content (payload, issuance timestamp) together with a keyed
  MAC over that content; `loads` recomputes the MAC and checks the age,
  exactly as the library does.  An invalid signature is any token whose
  signature field differs from the recomputed MAC ("tampered").
* passlib's `CryptContext(schemes=["bcrypt"]).hash/verify` is modelled with a
  structured digest string; per passlib's documented behaviour,
  `CryptContext.verify` raises `ValueError` ("hash could not be identified")
  when the digest does not parse as a configured scheme, which the model
  renders as `Except.error`.  The random salt becomes an explicit parameter.
* FastAPI's `HTTPException(status_code=n)` becomes `Except.error n`;
  template/redirect responses become explicit response values.
-/

set_option maxRecDepth 10000

/-! ## Data model (src/models.py) -/

/-- Row of table `users`. -/
structure User where
  id : Nat
  username : String
  password_hash : String
deriving DecidableEq

/-- Row of table `debt_groups`. -/
structure DebtGroup where
  id : Nat
  user_id : Nat
  name : String
  created_at : Nat
deriving DecidableEq

/-- Row of table `debt_items`. -/
structure DebtItem where
  id : Nat
  user_id : Nat
  group_id : Nat
  amount : ℚ
  note : Option String
  created_at : Nat
deriving DecidableEq

/-- The relational store: the three tables plus the autoincrement counters
behind the integer primary keys. -/
structure DB where
  users : List User
  groups : List DebtGroup
  items : List DebtItem
  nextUserId : Nat
  nextGroupId : Nat
  nextItemId : Nat
deriving DecidableEq

/-- A fresh database: empty tables, autoincrement counters starting at 1. -/
def emptyDb : DB :=
  { users := [], groups := [], items := [], nextUserId := 1, nextGroupId := 1, nextItemId := 1 }

/-! ## Password hasher (src/auth.py, passlib bcrypt context) -/

/-- Error message passlib uses when a digest matches no configured scheme. -/
def hashUnidentifiedMsg : String := "hash could not be identified"

/-- Abstract bcrypt key-derivation mixing of salt and password.  Stands in for
the bcrypt core; only its determinism is relied upon. -/
def bcryptMix (salt : Nat) (password : String) : Nat :=
  password.data.foldl (fun a c => a * 131 + c.toNat + 1) (salt + 7)

/-- `hash_password` (src/auth.py line 15): salted one-way digest.  passlib
draws a random salt; here it is an explicit parameter.  The digest encodes
the scheme tag, the salt and the mixed checksum. -/
def hash_password (password : String) (salt : Nat) : String :=
  "$2b$12$" ++ toString salt ++ "." ++ toString (bcryptMix salt password)

/-- Read a nonempty all-digit character run as a number. -/
def charsToNat? (l : List Char) : Option Nat :=
  if l ≠ [] ∧ l.all Char.isDigit then
    some (l.foldl (fun n c => n * 10 + (c.toNat - 48)) 0)
  else none

/-- Parse a digest as a bcrypt-scheme hash: scheme tag, then salt and
checksum separated by a dot.  `none` models passlib failing to identify the
hash. -/
def parseBcrypt (digest : String) : Option (Nat × Nat) :=
  if ("$2b$12$").data.isPrefixOf digest.data then
    let rest := digest.data.drop 7
    let saltPart := rest.takeWhile (fun c => c != '.')
    match rest.dropWhile (fun c => c != '.') with
    | [] => none
    | _ :: sumPart =>
      match charsToNat? saltPart, charsToNat? sumPart with
      | some sn, some mn => some (sn, mn)
      | _, _ => none
  else none

/-- `verify_password` (src/auth.py line 19): delegates to
`pwd_context.verify`, which recomputes the digest from the embedded salt and
compares, but raises `ValueError` when the digest is not recognised as a
configured scheme (modelled as `Except.error`). -/
def verify_password (plain_password : String) (hashed_password : String) : Except String Bool :=
  match parseBcrypt hashed_password with
  | none => Except.error hashUnidentifiedMsg
  | some (salt, checksum) => Except.ok (bcryptMix salt plain_password == checksum)

/-! ## Token service (src/auth.py, itsdangerous URLSafeTimedSerializer) -/

/-- Default secret (src/auth.py line 7, the environment fallback). -/
def SECRET_KEY : String := "dev-secret-key-change-me"

/-- Session cookie name (src/auth.py line 8). -/
def SESSION_COOKIE : String := "session"

/-- Maximum token age in seconds: 14 days (src/auth.py line 9). -/
def SESSION_MAX_AGE : Nat := 60 * 60 * 24 * 14

/-- The serialized payload `{"user_id": ...}`: the value under the
`"user_id"` key, or `none` when the key is absent. -/
structure SessionPayload where
  userId? : Option Int
deriving DecidableEq

/-- Keyed MAC over payload and issuance timestamp, standing in for the
HMAC the serializer applies.  Only recomputation-equality is relied upon. -/
def macSign (secret : String) (payload : SessionPayload) (issuedAt : Nat) : Nat :=
  (secret.data.foldl (fun a c => a * 131 + c.toNat + 1) 7) * 1000003 + issuedAt * 31 +
    (match payload.userId? with
     | none => 0
     | some u => 2 * u.natAbs + (if u < 0 then 1 else 0) + 1)

/-- A session token in parsed form: payload, issuance timestamp, and the
signature bytes carried with them. -/
structure Token where
  payload : SessionPayload
  issuedAt : Nat
  signature : Nat
deriving DecidableEq

/-- `create_session_token` (src/auth.py line 23): serialize
`{"user_id": user_id}` with the current timestamp and sign it. -/
def create_session_token (user_id : Int) (now : Nat) : Token :=
  { payload := { userId? := some user_id }
    issuedAt := now
    signature := macSign SECRET_KEY { userId? := some user_id } now }

/-- `read_session_token` (src/auth.py line 27): `serializer.loads` verifies
the signature (else `BadSignature`), then checks the age against
`SESSION_MAX_AGE` (else `SignatureExpired`); both exceptions are caught and
become `none`; otherwise the result is `data.get("user_id")`. -/
def read_session_token (token : Token) (now : Nat) : Option Int :=
  if token.signature = macSign SECRET_KEY token.payload token.issuedAt then
    if now - token.issuedAt > SESSION_MAX_AGE then none
    else token.payload.userId?
  else none

/-! ## Session resolver and request handlers (src/main.py) -/

/-- `get_current_user` (src/main.py line 31): read the session cookie (absent
cookie → 401), read the token (`None` → 401; Python's `if not user_id` also
rejects the integer `0`), then look the user up by id (absent → 401). -/
def get_current_user (db : DB) (cookie : Option Token) (now : Nat) : Except Nat User :=
  match cookie with
  | none => Except.error 401
  | some token =>
    match read_session_token token now with
    | none => Except.error 401
    | some user_id =>
      if user_id = 0 then Except.error 401
      else
        match db.users.find? (fun u => (u.id : Int) == user_id) with
        | none => Except.error 401
        | some user => Except.ok user

/-- A `Set-Cookie` as issued by register/login. -/
structure SetCookie where
  name : String
  value : Token
  httponly : Bool
  samesite : String
deriving DecidableEq

/-- Response of the register/login form handlers: either the form re-rendered
with an error message and a status code, or a redirect carrying a session
cookie. -/
inductive AuthResp where
  | formError (tmpl : String) (message : String) (status : Nat)
  | redirect (location : String) (status : Nat) (cookie : SetCookie)
deriving DecidableEq

/-- Conflict message shown by register (src/main.py line 67). -/
def registerConflictMsg : String := "Это имя уже занято."

/-- Generic invalid-credentials message shown by login (src/main.py line 96). -/
def invalidCredentialsMsg : String := "Неверный логин или пароль."

/-- The session cookie both register and login set (http-only, lax). -/
def sessionCookie (t : Token) : SetCookie :=
  { name := SESSION_COOKIE, value := t, httponly := true, samesite := "lax" }

/-- `register` (src/main.py line 61): reject an already-present username with
the conflict form (status 400, database untouched); otherwise insert the user
with the hashed password, issue a token for the new id, set the cookie and
redirect to the dashboard.  passlib's random salt and the current time are
explicit parameters. -/
def register (db : DB) (username password : String) (salt : Nat) (now : Nat) : AuthResp × DB :=
  match db.users.find? (fun u => u.username == username) with
  | some _ => (AuthResp.formError ("register.html") registerConflictMsg 400, db)
  | none =>
    let user : User :=
      { id := db.nextUserId, username := username, password_hash := hash_password password salt }
    (AuthResp.redirect ("/dashboard") 302 (sessionCookie (create_session_token (user.id : Int) now)),
     { db with users := db.users ++ [user], nextUserId := db.nextUserId + 1 })

/-- `login` (src/main.py line 90): look the user up by username; absent user
or failed verification renders the generic invalid-credentials form (400);
success issues the token and cookie.  A `ValueError` escaping
`verify_password` propagates (`Except.error`). -/
def login (db : DB) (username password : String) (now : Nat) : Except String AuthResp :=
  match db.users.find? (fun u => u.username == username) with
  | none => Except.ok (AuthResp.formError ("login.html") invalidCredentialsMsg 400)
  | some user =>
    match verify_password password user.password_hash with
    | Except.error e => Except.error e
    | Except.ok true =>
      Except.ok (AuthResp.redirect ("/dashboard") 302
        (sessionCookie (create_session_token (user.id : Int) now)))
    | Except.ok false =>
      Except.ok (AuthResp.formError ("login.html") invalidCredentialsMsg 400)

/-- Sum of the amounts of the items joined to a group by `group_id`
(the dashboard's `outerjoin` + `coalesce(sum(amount), 0.0)`). -/
def groupBalance (db : DB) (gid : Nat) : ℚ :=
  ((db.items.filter (fun it => it.group_id == gid)).map (fun it => it.amount)).sum

/-- Sum of the amounts of all items owned by a user
(the dashboard's `total_balance` query). -/
def userTotal (db : DB) (uid : Nat) : ℚ :=
  ((db.items.filter (fun it => it.user_id == uid)).map (fun it => it.amount)).sum

/-- Newest-first order on groups (`DebtGroup.created_at.desc()`). -/
def newestFirstG (a b : DebtGroup) : Prop := b.created_at ≤ a.created_at

instance : DecidableRel newestFirstG := fun a b => Nat.decLe b.created_at a.created_at

instance : IsTotal DebtGroup newestFirstG :=
  ⟨fun a b => Nat.le_total b.created_at a.created_at⟩

instance : IsTrans DebtGroup newestFirstG :=
  ⟨fun _ _ _ h h' => Nat.le_trans h' h⟩

/-- Newest-first order on items (`DebtItem.created_at.desc()`). -/
def newestFirstI (a b : DebtItem) : Prop := b.created_at ≤ a.created_at

instance : DecidableRel newestFirstI := fun a b => Nat.decLe b.created_at a.created_at

/-- `dashboard` (src/main.py line 117): the user's groups newest-first, each
with the coalesced sum of its joined items, plus the grand total over the
user's items. -/
def dashboard (db : DB) (user : User) : List (DebtGroup × ℚ) × ℚ :=
  let mine := db.groups.filter (fun g => g.user_id == user.id)
  ((List.insertionSort newestFirstG mine).map (fun g => (g, groupBalance db g.id)),
   userTotal db user.id)

/-- `create_group` (src/main.py line 144): insert a group owned by the caller
and redirect to the dashboard. -/
def create_group (db : DB) (user : User) (name : String) (now : Nat) : DB × String :=
  let group : DebtGroup :=
    { id := db.nextGroupId, user_id := user.id, name := name, created_at := now }
  ({ db with groups := db.groups ++ [group], nextGroupId := db.nextGroupId + 1 }, "/dashboard")

/-- `group_detail` (src/main.py line 152): one lookup scoped by (group id,
caller id); 404 when it fails; otherwise the group's items (scoped to the
caller) newest-first and their balance. -/
def group_detail (db : DB) (user : User) (group_id : Nat) :
    Except Nat (DebtGroup × List DebtItem × ℚ) :=
  match db.groups.find? (fun g => g.id == group_id && g.user_id == user.id) with
  | none => Except.error 404
  | some group =>
    let items := List.insertionSort newestFirstI
      (db.items.filter (fun it => it.group_id == group.id && it.user_id == user.id))
    Except.ok (group, items, (items.map (fun it => it.amount)).sum)

/-- `add_item` (src/main.py line 176): scope-check the group by (group id,
caller id); 404 when it fails; otherwise insert an item deriving `user_id`
from the caller and `group_id` from the verified group, and redirect to the
group page. -/
def add_item (db : DB) (user : User) (group_id : Nat) (amount : ℚ) (note : Option String)
    (now : Nat) : Except Nat (DB × String) :=
  match db.groups.find? (fun g => g.id == group_id && g.user_id == user.id) with
  | none => Except.error 404
  | some group =>
    let item : DebtItem :=
      { id := db.nextItemId, user_id := user.id, group_id := group.id, amount := amount,
        note := note, created_at := now }
    Except.ok ({ db with items := db.items ++ [item], nextItemId := db.nextItemId + 1 },
      "/groups/" ++ toString group.id)

/-- `delete_item` (src/main.py line 193): one lookup scoped by (item id,
group id, caller id); 404 when it fails; otherwise delete that row. -/
def delete_item (db : DB) (user : User) (group_id item_id : Nat) : Except Nat (DB × String) :=
  let p := fun it : DebtItem =>
    it.id == item_id && it.group_id == group_id && it.user_id == user.id
  match db.items.find? p with
  | none => Except.error 404
  | some _ =>
    Except.ok ({ db with items := db.items.eraseP p }, "/groups/" ++ toString group_id)

/-- `delete_group` (src/main.py line 216): one lookup scoped by (group id,
caller id); 404 when it fails; otherwise delete the row, which cascades to
its items (`cascade="all, delete-orphan"` on `DebtGroup.items`,
src/models.py line 29). -/
def delete_group (db : DB) (user : User) (group_id : Nat) : Except Nat (DB × String) :=
  let p := fun g : DebtGroup => g.id == group_id && g.user_id == user.id
  match db.groups.find? p with
  | none => Except.error 404
  | some group =>
    let groups' := db.groups.eraseP p
    let items' := db.items.filter (fun it => it.group_id != group.id)
    Except.ok ({ db with groups := groups', items := items' }, "/dashboard")

/-! ## State machine over the mutating handlers -/

/-- One externally triggered state-changing request, with the nondeterministic
inputs (authenticated caller, salt, clock) made explicit. -/
inductive Op where
  | opRegister (username password : String) (salt now : Nat)
  | opCreateGroup (user : User) (name : String) (now : Nat)
  | opAddItem (user : User) (group_id : Nat) (amount : ℚ) (note : Option String) (now : Nat)
  | opDeleteItem (user : User) (group_id item_id : Nat)
  | opDeleteGroup (user : User) (group_id : Nat)

/-- Database effect of one request (a 404 leaves the database untouched). -/
def step (db : DB) : Op → DB
  | Op.opRegister u p s n => (register db u p s n).2
  | Op.opCreateGroup user name n => (create_group db user name n).1
  | Op.opAddItem user gid a note n =>
    match add_item db user gid a note n with
    | Except.ok (db2, _) => db2
    | Except.error _ => db
  | Op.opDeleteItem user gid iid =>
    match delete_item db user gid iid with
    | Except.ok (db2, _) => db2
    | Except.error _ => db
  | Op.opDeleteGroup user gid =>
    match delete_group db user gid with
    | Except.ok (db2, _) => db2
    | Except.error _ => db

/-- A reachable state: the result of a request sequence from a fresh database. -/
def runOps (ops : List Op) : DB := ops.foldl step emptyDb

/-- Decidable form of the ownership invariant of the spec's data model: every
item's `user_id` equals the `user_id` of its group. -/
def ownerInv (db : DB) : Bool :=
  db.items.all fun it =>
    db.groups.all fun g => g.id != it.group_id || g.user_id == it.user_id

/-- Inductive state invariant: group primary keys are distinct and below the
autoincrement counter, and every item's group exists and shares its owner. -/
def StateInv (db : DB) : Prop :=
  (db.groups.map (fun g => g.id)).Nodup ∧
  (∀ g ∈ db.groups, g.id < db.nextGroupId) ∧
  (∀ it ∈ db.items, ∃ g ∈ db.groups, g.id = it.group_id ∧ g.user_id = it.user_id)

/-! ## Concrete fixtures used by the witness theorems -/

/-- A stored digest for Alice, produced with salt 1. -/
def aliceHash : String := hash_password ("correct horse") 1

/-- Fixture user 1. -/
def alice : User := { id := 1, username := "alice", password_hash := aliceHash }

/-- Fixture user 2. -/
def bob : User := { id := 2, username := "bob", password_hash := hash_password ("hunter2") 4 }

/-- Fixture store holding only Alice. -/
def dbAuth : DB := { emptyDb with users := [alice], nextUserId := 2 }

/-- Fixture store where group 1 and item 1 belong to Bob, not Alice. -/
def dbScope : DB :=
  { users := [alice, bob]
    groups := [{ id := 1, user_id := 2, name := "bobs", created_at := 0 }]
    items := [{ id := 1, user_id := 2, group_id := 1, amount := 1, note := none, created_at := 0 }]
    nextUserId := 3, nextGroupId := 2, nextItemId := 2 }

/-- Fixture group for the dashboard example. -/
def gDash : DebtGroup := { id := 1, user_id := 1, name := "trip", created_at := 5 }

/-- Fixture store for the dashboard example: one group of Alice's holding
items of amounts 10.0, −3.5 and 2.0. -/
def dbDash : DB :=
  { users := [alice]
    groups := [gDash]
    items :=
      [{ id := 1, user_id := 1, group_id := 1, amount := 10, note := none, created_at := 1 },
       { id := 2, user_id := 1, group_id := 1, amount := -3.5, note := none, created_at := 2 },
       { id := 3, user_id := 1, group_id := 1, amount := 2, note := none, created_at := 3 }]
    nextUserId := 2, nextGroupId := 2, nextItemId := 4 }

/-- Fixture item deleted by the cascade example. -/
def itCascade : DebtItem :=
  { id := 1, user_id := 1, group_id := 1, amount := 3, note := none, created_at := 0 }

/-- Fixture store for the cascade example: Alice's group 1 with two items. -/
def dbCascade : DB :=
  { users := [alice]
    groups := [{ id := 1, user_id := 1, name := "g", created_at := 0 }]
    items := [itCascade,
      { id := 2, user_id := 1, group_id := 1, amount := 4, note := none, created_at := 1 }]
    nextUserId := 2, nextGroupId := 2, nextItemId := 3 }

/-- The store after deleting group 1 from `dbCascade`: group and items gone. -/
def dbCascadeAfter : DB := { dbCascade with groups := [], items := [] }

/-- Fixture store holding a user whose id is 0, for the falsy-token example. -/
def dbUserZero : DB :=
  { emptyDb with users := [{ id := 0, username := "zero", password_hash := aliceHash }] }

/-! ## Theorems -/

/-- Claim C3: reading a freshly issued session token returns the issuing
user identifier, as long as the elapsed time does not exceed the maximum
token age. -/
theorem token_round_trip (user_id : Int) (t_issue t_read : Nat)
    (h : t_read - t_issue ≤ SESSION_MAX_AGE) :
    read_session_token (create_session_token user_id t_issue) t_read = some user_id := by
  simp [read_session_token, create_session_token, Nat.not_lt.mpr h]

/-- Witness for C3: user id 7, issued and read at time 100. -/
theorem token_round_trip_witness :
    read_session_token (create_session_token 7 100) 100 = some 7 :=
  token_round_trip 7 100 100 (by decide)

/-- Claim C4: `read_session_token` signals absent (`none`) on an invalid
signature and on an age beyond `SESSION_MAX_AGE`, and otherwise returns the
embedded user identifier. -/
theorem read_session_token_spec (token : Token) (now : Nat) :
    (token.signature ≠ macSign SECRET_KEY token.payload token.issuedAt →
      read_session_token token now = none) ∧
    (now - token.issuedAt > SESSION_MAX_AGE → read_session_token token now = none) ∧
    (token.signature = macSign SECRET_KEY token.payload token.issuedAt →
      now - token.issuedAt ≤ SESSION_MAX_AGE →
      read_session_token token now = token.payload.userId?) := by
  refine ⟨fun h => ?_, fun h => ?_, fun h1 h2 => ?_⟩
  · simp [read_session_token, h]
  · by_cases hs : token.signature = macSign SECRET_KEY token.payload token.issuedAt
    · simp [read_session_token, hs, h]
    · simp [read_session_token, hs]
  · simp [read_session_token, h1, Nat.not_lt.mpr h2]

/-- Witness for C4: a token with a tampered signature is absent, an expired
token is absent, and a valid fresh token yields its user id. -/
theorem read_session_token_spec_witness :
    read_session_token ⟨⟨some 5⟩, 0, (create_session_token 5 0).signature + 1⟩ 9 = none ∧
    read_session_token (create_session_token 5 0) (SESSION_MAX_AGE + 1) = none ∧
    read_session_token (create_session_token 5 0) 10 = some 5 :=
  ⟨(read_session_token_spec _ 9).1 (by decide),
   (read_session_token_spec _ (SESSION_MAX_AGE + 1)).2.1 (by decide),
   (read_session_token_spec _ 10).2.2 (by decide) (by decide)⟩

/-- Claim C10: a validly signed fresh token whose payload lacks the
`user_id` key or carries the value 0 is rejected by the falsiness check in
`get_current_user` — 401 for every database state, so even a user with id 0
is never resolved. -/
theorem falsy_user_id_unauthenticated (db : DB) (payload : SessionPayload)
    (issuedAt now : Nat) (hfresh : now - issuedAt ≤ SESSION_MAX_AGE)
    (hfalsy : payload.userId? = none ∨ payload.userId? = some 0) :
    get_current_user db (some ⟨payload, issuedAt, macSign SECRET_KEY payload issuedAt⟩) now =
      Except.error 401 := by
  have hread : read_session_token ⟨payload, issuedAt, macSign SECRET_KEY payload issuedAt⟩ now =
      payload.userId? := by
    simp [read_session_token, Nat.not_lt.mpr hfresh]
  rcases hfalsy with h | h <;> simp [get_current_user, hread, h]

/-- Witness for C10: a signed token for user id 0 yields 401 even on a store
that does contain a user with id 0. -/
theorem falsy_user_id_unauthenticated_witness :
    get_current_user dbUserZero (some ⟨⟨some 0⟩, 3, macSign SECRET_KEY ⟨some 0⟩ 3⟩) 7 =
      Except.error 401 :=
  falsy_user_id_unauthenticated dbUserZero ⟨some 0⟩ 3 7 (by decide) (Or.inr rfl)

/-- Claim C2 counterexample: on a malformed digest the passlib context
raises `ValueError` ("hash could not be identified") instead of returning a
boolean, so `verify_password` propagates an exception for the empty-string
digest. -/
theorem verify_password_raises_on_malformed :
    verify_password ("secret") ("") = Except.error hashUnidentifiedMsg := by rfl

/-- Claim C2 (amended): for every digest that parses as a bcrypt hash,
`verify_password` returns a boolean — false exactly on checksum mismatch —
and for every digest that does not, it raises `ValueError` rather than
returning false. -/
theorem verify_password_spec (plain digest : String) :
    (∀ salt checksum, parseBcrypt digest = some (salt, checksum) →
      verify_password plain digest = Except.ok (bcryptMix salt plain == checksum)) ∧
    (parseBcrypt digest = none →
      verify_password plain digest = Except.error hashUnidentifiedMsg) := by
  refine ⟨fun salt checksum h => ?_, fun h => ?_⟩ <;> simp [verify_password, h]

/-- Witness for C2 (amended): the stored digest verifies its own password,
rejects a wrong password, and a garbage digest raises. -/
theorem verify_password_spec_witness :
    verify_password ("correct horse") aliceHash = Except.ok true ∧
    verify_password ("wrong") aliceHash = Except.ok false ∧
    verify_password ("pw") ("not-a-hash") = Except.error hashUnidentifiedMsg :=
  ⟨(verify_password_spec ("correct horse") aliceHash).1 1 (bcryptMix 1 ("correct horse"))
      (by rfl),
   (verify_password_spec ("wrong") aliceHash).1 1 (bcryptMix 1 ("correct horse")) (by rfl),
   (verify_password_spec ("pw") ("not-a-hash")).2 (by rfl)⟩

/-- Claim C1: each scoped handler answers 404 exactly when no entity with
the given identifier is owned by the caller — the entity being absent and
the entity being owned by another user produce the same `Except.error 404`,
so the two cases are indistinguishable. -/
theorem scoped_handlers_404 (db : DB) (user : User) (group_id item_id : Nat) :
    (group_detail db user group_id = Except.error 404 ↔
      ∀ g ∈ db.groups, ¬(g.id = group_id ∧ g.user_id = user.id)) ∧
    ((∀ amount note now, add_item db user group_id amount note now = Except.error 404) ↔
      ∀ g ∈ db.groups, ¬(g.id = group_id ∧ g.user_id = user.id)) ∧
    (delete_group db user group_id = Except.error 404 ↔
      ∀ g ∈ db.groups, ¬(g.id = group_id ∧ g.user_id = user.id)) ∧
    (delete_item db user group_id item_id = Except.error 404 ↔
      ∀ it ∈ db.items, ¬(it.id = item_id ∧ it.group_id = group_id ∧ it.user_id = user.id)) := by
  have hGnone : db.groups.find? (fun g => g.id == group_id && g.user_id == user.id) = none ↔
      ∀ g ∈ db.groups, ¬(g.id = group_id ∧ g.user_id = user.id) := by
    rw [List.find?_eq_none]
    simp only [Bool.and_eq_true, beq_iff_eq]
  have hInone : db.items.find?
        (fun it => it.id == item_id && it.group_id == group_id && it.user_id == user.id)
        = none ↔
      ∀ it ∈ db.items, ¬(it.id = item_id ∧ it.group_id = group_id ∧ it.user_id = user.id) := by
    rw [List.find?_eq_none]
    simp only [Bool.and_eq_true, beq_iff_eq, and_assoc]
  have hGD : group_detail db user group_id = Except.error 404 ↔
      db.groups.find? (fun g => g.id == group_id && g.user_id == user.id) = none := by
    cases h : db.groups.find? (fun g => g.id == group_id && g.user_id == user.id) <;>
      simp [group_detail, h]
  have hAI : (∀ amount note now, add_item db user group_id amount note now = Except.error 404) ↔
      db.groups.find? (fun g => g.id == group_id && g.user_id == user.id) = none := by
    cases h : db.groups.find? (fun g => g.id == group_id && g.user_id == user.id) <;>
      simp [add_item, h]
  have hDG : delete_group db user group_id = Except.error 404 ↔
      db.groups.find? (fun g => g.id == group_id && g.user_id == user.id) = none := by
    cases h : db.groups.find? (fun g => g.id == group_id && g.user_id == user.id) <;>
      simp [delete_group, h]
  have hDI : delete_item db user group_id item_id = Except.error 404 ↔
      db.items.find?
        (fun it => it.id == item_id && it.group_id == group_id && it.user_id == user.id)
        = none := by
    cases h : db.items.find?
        (fun it => it.id == item_id && it.group_id == group_id && it.user_id == user.id) <;>
      simp [delete_item, h]
  exact ⟨hGD.trans hGnone, hAI.trans hGnone, hDG.trans hGnone, hDI.trans hInone⟩

/-- Witness for C1: Alice receives 404 from all four handlers on Bob's
group 1 and item 1, exactly as for a non-existent entity. -/
theorem scoped_handlers_404_witness :
    group_detail dbScope alice 1 = Except.error 404 ∧
    add_item dbScope alice 1 5 none 9 = Except.error 404 ∧
    delete_group dbScope alice 1 = Except.error 404 ∧
    delete_item dbScope alice 1 1 = Except.error 404 :=
  ⟨(scoped_handlers_404 dbScope alice 1 1).1.mpr (by decide),
   ((scoped_handlers_404 dbScope alice 1 1).2.1.mpr (by decide)) 5 none 9,
   (scoped_handlers_404 dbScope alice 1 1).2.2.1.mpr (by decide),
   (scoped_handlers_404 dbScope alice 1 1).2.2.2.mpr (by decide)⟩

/-- Claim C5: registering an existing username yields the conflict form with
status 400 and leaves the store unchanged (so any later login behaves as
before); a fresh username creates the user with the hashed password, issues
a token for the new id, and redirects to the dashboard with an http-only,
lax-same-site session cookie. -/
theorem register_spec (db : DB) (username password : String) (salt now : Nat) :
    ((∃ u ∈ db.users, u.username = username) →
      register db username password salt now =
        (AuthResp.formError ("register.html") registerConflictMsg 400, db) ∧
      (∀ un pw n2, login (register db username password salt now).2 un pw n2 =
        login db un pw n2)) ∧
    ((∀ u ∈ db.users, u.username ≠ username) →
      register db username password salt now =
        (AuthResp.redirect ("/dashboard") 302
          (sessionCookie (create_session_token (db.nextUserId : Int) now)),
         { db with
            users := db.users ++ [⟨db.nextUserId, username, hash_password password salt⟩],
            nextUserId := db.nextUserId + 1 })) ∧
    (∀ t, (sessionCookie t).httponly = true ∧ (sessionCookie t).samesite = ("lax" : String) ∧
      (sessionCookie t).name = SESSION_COOKIE) := by
  refine ⟨fun hex => ?_, fun hall => ?_, fun t => ⟨rfl, rfl, rfl⟩⟩
  · obtain ⟨u, hu, hname⟩ := hex
    have hne : db.users.find? (fun v => v.username == username) ≠ none := by
      intro hn
      rw [List.find?_eq_none] at hn
      exact hn u hu (by simp [hname])
    cases h : db.users.find? (fun v => v.username == username) with
    | none => exact absurd h hne
    | some w =>
      refine ⟨by simp [register, h], fun un pw n2 => ?_⟩
      have h2 : (register db username password salt now).2 = db := by simp [register, h]
      rw [h2]
  · have h : db.users.find? (fun v => v.username == username) = none := by
      rw [List.find?_eq_none]
      intro x hx
      simpa using hall x hx
    simp [register, h]

/-- Witness for C5: re-registering "alice" conflicts and leaves her login
behaviour unchanged; registering "carol" creates user 2 with cookie and
redirect. -/
theorem register_spec_witness :
    register dbAuth ("alice") ("newpw") 9 3 =
      (AuthResp.formError ("register.html") registerConflictMsg 400, dbAuth) ∧
    login (register dbAuth ("alice") ("newpw") 9 3).2 ("alice") ("correct horse") 0 =
      login dbAuth ("alice") ("correct horse") 0 ∧
    register dbAuth ("carol") ("pw2") 9 3 =
      (AuthResp.redirect ("/dashboard") 302 (sessionCookie (create_session_token 2 3)),
       { dbAuth with
         users := dbAuth.users ++ [⟨2, "carol", hash_password ("pw2") 9⟩],
         nextUserId := 3 }) :=
  ⟨((register_spec dbAuth ("alice") ("newpw") 9 3).1 ⟨alice, by decide, rfl⟩).1,
   ((register_spec dbAuth ("alice") ("newpw") 9 3).1 ⟨alice, by decide, rfl⟩).2
     ("alice") ("correct horse") 0,
   (register_spec dbAuth ("carol") ("pw2") 9 3).2.1 (by decide)⟩

/-- Claim C8: a login whose username matches no user and a login whose
username exists but whose password fails verification return identical
responses: the same generic message with status 400. -/
theorem login_failure_indistinguishable
    (db1 : DB) (u1 p1 : String) (n1 : Nat) (db2 : DB) (u2 p2 : String) (n2 : Nat)
    (h1 : ∀ u ∈ db1.users, u.username ≠ u1)
    (h2 : ∃ u, db2.users.find? (fun v => v.username == u2) = some u ∧
      verify_password p2 u.password_hash = Except.ok false) :
    login db1 u1 p1 n1 = login db2 u2 p2 n2 ∧
    login db1 u1 p1 n1 =
      Except.ok (AuthResp.formError ("login.html") invalidCredentialsMsg 400) := by
  obtain ⟨u, hf, hv⟩ := h2
  have hn : db1.users.find? (fun v => v.username == u1) = none := by
    rw [List.find?_eq_none]
    intro x hx
    simpa using h1 x hx
  constructor
  · simp [login, hn, hf, hv]
  · simp [login, hn]

/-- Witness for C8: unknown user "mallory" and Alice with a wrong password
receive the same response. -/
theorem login_failure_indistinguishable_witness :
    login emptyDb ("mallory") ("x") 0 = login dbAuth ("alice") ("wrong") 0 ∧
    login emptyDb ("mallory") ("x") 0 =
      Except.ok (AuthResp.formError ("login.html") invalidCredentialsMsg 400) :=
  login_failure_indistinguishable emptyDb ("mallory") ("x") 0 dbAuth ("alice") ("wrong") 0
    (by decide) ⟨alice, by rfl, by rfl⟩

/-- Claim C6: the dashboard lists exactly the caller's groups, newest first,
each paired with the sum of the amounts of its items (zero when empty), and
its grand total is the sum of the amounts of all the caller's items (zero
when there are none). -/
theorem dashboard_spec (db : DB) (user : User) :
    List.Perm ((dashboard db user).1.map Prod.fst)
      (db.groups.filter (fun g => g.user_id == user.id)) ∧
    List.Sorted (fun p q : DebtGroup × ℚ => q.1.created_at ≤ p.1.created_at)
      (dashboard db user).1 ∧
    (∀ p ∈ (dashboard db user).1, p.1 ∈ db.groups ∧ p.1.user_id = user.id ∧
      p.2 = ((db.items.filter (fun it => it.group_id == p.1.id)).map
        (fun it => it.amount)).sum) ∧
    (dashboard db user).2 = ((db.items.filter (fun it => it.user_id == user.id)).map
      (fun it => it.amount)).sum := by
  refine ⟨?_, ?_, ?_, rfl⟩
  · have hmaps : (dashboard db user).1.map Prod.fst =
        List.insertionSort newestFirstG (db.groups.filter (fun g => g.user_id == user.id)) := by
      simp only [dashboard, List.map_map]
      have hcomp : (Prod.fst ∘ fun g : DebtGroup => (g, groupBalance db g.id)) = id := rfl
      rw [hcomp, List.map_id]
    rw [hmaps]
    exact List.perm_insertionSort _ _
  · have hs := List.sorted_insertionSort newestFirstG
      (db.groups.filter (fun g => g.user_id == user.id))
    exact List.Pairwise.map _ (fun a b h => h) hs
  · intro p hp
    have hp' : p ∈ (List.insertionSort newestFirstG
        (db.groups.filter (fun g => g.user_id == user.id))).map
        (fun g => (g, groupBalance db g.id)) := hp
    obtain ⟨g, hg, rfl⟩ := List.mem_map.mp hp'
    have hgmem : g ∈ db.groups.filter (fun g => g.user_id == user.id) :=
      (List.Perm.mem_iff (List.perm_insertionSort _ _)).mp hg
    exact ⟨List.mem_of_mem_filter hgmem, by simpa using List.of_mem_filter hgmem, rfl⟩

/-- Witness for C6: with one group holding items of amounts 10.0, −3.5 and
2.0, the group balance is 8.5 and equals the total balance. -/
theorem dashboard_spec_witness :
    (dashboard dbDash alice).2 =
      ((dbDash.items.filter (fun it => it.user_id == alice.id)).map
        (fun it => it.amount)).sum ∧
    (8.5 : ℚ) =
      ((dbDash.items.filter (fun it => it.group_id == gDash.id)).map
        (fun it => it.amount)).sum ∧
    (dashboard dbDash alice).2 = (8.5 : ℚ) :=
  have hone : (dashboard dbDash alice).1 = [(gDash, (8.5 : ℚ))] := by
    simp [dashboard, dbDash, groupBalance, gDash, alice, List.insertionSort,
      List.orderedInsert]
    norm_num
  have hmem : (gDash, (8.5 : ℚ)) ∈ (dashboard dbDash alice).1 := by
    rw [hone]
    exact List.mem_singleton.mpr rfl
  ⟨(dashboard_spec dbDash alice).2.2.2,
   ((dashboard_spec dbDash alice).2.2.1 (gDash, (8.5 : ℚ)) hmem).2.2,
   by
    simp [dashboard, dbDash, userTotal, alice]
    norm_num⟩

/-- Claim C7: a successful delete-group leaves no item of the group behind —
no remaining item carries the deleted group's id, and (with distinct item
primary keys) an item formerly in the group is no longer found by its id;
with distinct group primary keys the group itself is gone. -/
theorem delete_group_cascades (db : DB) (user : User) (group_id : Nat) (db2 : DB)
    (loc : String) (hids : (db.items.map (fun it => it.id)).Nodup)
    (h : delete_group db user group_id = Except.ok (db2, loc)) :
    (∀ it ∈ db2.items, it.group_id ≠ group_id) ∧
    (∀ it ∈ db.items, it.group_id = group_id →
      db2.items.find? (fun x => x.id == it.id) = none) ∧
    ((db.groups.map (fun g => g.id)).Nodup → ∀ g ∈ db2.groups, g.id ≠ group_id) := by
  cases hf : db.groups.find? (fun g => g.id == group_id && g.user_id == user.id) with
  | none => simp [delete_group, hf] at h
  | some group =>
    have hpg := List.find?_some hf
    have hgid : group.id = group_id := by
      have hpg' := hpg
      simp only [Bool.and_eq_true, beq_iff_eq] at hpg'
      exact hpg'.1
    simp only [delete_group, hf, Except.ok.injEq, Prod.mk.injEq] at h
    obtain ⟨hdb2, -⟩ := h
    subst hdb2
    refine ⟨?_, ?_, ?_⟩
    · intro it hit
      have hit' : it ∈ db.items.filter (fun x => x.group_id != group.id) := hit
      have hne := List.of_mem_filter hit'
      simpa [hgid] using hne
    · intro it hit hgrp
      rw [List.find?_eq_none]
      intro x hx hbeq
      have hx' : x ∈ db.items.filter (fun y => y.group_id != group.id) := hx
      have hxne := List.of_mem_filter hx'
      have hxmem := List.mem_of_mem_filter hx'
      have hxid : x.id = it.id := by simpa using hbeq
      have hxeq : x = it := List.inj_on_of_nodup_map hids hxmem hit hxid
      rw [hxeq] at hxne
      simp [hgrp, hgid] at hxne
    · intro hgnd g hgm hgeq
      have hmemg : group ∈ db.groups := List.mem_of_find?_eq_some hf
      obtain ⟨a, l1, l2, hl1, hpa, hsplit, herase⟩ :=
        @List.exists_of_eraseP DebtGroup
          (fun g => g.id == group_id && g.user_id == user.id) db.groups group hmemg hpg
      have haid : a.id = group_id := by
        simp only [Bool.and_eq_true, beq_iff_eq] at hpa
        exact hpa.1
      have hgm0 : g ∈ db.groups.eraseP
          (fun g => g.id == group_id && g.user_id == user.id) := hgm
      rw [herase] at hgm0
      rw [hsplit, List.map_append, List.map_cons] at hgnd
      have hain := (List.nodup_cons.mp (List.nodup_middle.mp hgnd)).1
      apply hain
      rw [← List.map_append]
      have hgin : g.id ∈ (l1 ++ l2).map (fun g => g.id) := List.mem_map_of_mem _ hgm0
      rw [hgeq, ← haid] at hgin
      exact hgin

/-- Witness for C7: after Alice deletes group 1, its former item 1 is not
found by its id. -/
theorem delete_group_cascades_witness :
    dbCascadeAfter.items.find? (fun x => x.id == 1) = none :=
  (delete_group_cascades dbCascade alice 1 dbCascadeAfter ("/dashboard")
      (by decide) (by rfl)).2.1 itCascade (by decide) (by decide)

/-- An element not matched by the predicate survives `eraseP`. -/
theorem mem_eraseP_keep {α : Type _} (p : α → Bool) {a : α} {l : List α}
    (ha : a ∈ l) (hp : ¬ p a = true) : a ∈ l.eraseP p :=
  (List.mem_eraseP_of_neg hp).mpr ha

/-- The fresh database satisfies the state invariant. -/
theorem stateInv_empty : StateInv emptyDb := by
  refine ⟨List.nodup_nil, ?_, ?_⟩ <;> intro x hx <;> cases hx

/-- Every mutating handler preserves the state invariant. -/
theorem stateInv_step (db : DB) (op : Op) (h : StateInv db) : StateInv (step db op) := by
  obtain ⟨hnd, hlt, hown⟩ := h
  cases op with
  | opRegister u p s n =>
    cases hf : db.users.find? (fun v => v.username == u) <;>
      simp only [step, register, hf] <;> exact ⟨hnd, hlt, hown⟩
  | opCreateGroup user name n =>
    simp only [step, create_group]
    refine ⟨?_, ?_, ?_⟩
    · rw [List.map_append]
      refine List.Nodup.append hnd (List.nodup_singleton _) ?_
      intro x hxl hxr
      simp only [List.map_cons, List.map_nil, List.mem_singleton] at hxr
      obtain ⟨g, hg, hgx⟩ := List.mem_map.mp hxl
      exact absurd (hgx.trans hxr) (Nat.ne_of_lt (hlt g hg))
    · intro g hg
      rcases List.mem_append.mp hg with hl | hr
      · exact Nat.lt_trans (hlt g hl) (Nat.lt_succ_self _)
      · rw [List.mem_singleton] at hr
        rw [hr]
        exact Nat.lt_succ_self _
    · intro it hit
      obtain ⟨g, hg, h1, h2⟩ := hown it hit
      exact ⟨g, List.mem_append_left _ hg, h1, h2⟩
  | opAddItem user gid a note n =>
    cases hf : db.groups.find? (fun g => g.id == gid && g.user_id == user.id) with
    | none => simp only [step, add_item, hf]; exact ⟨hnd, hlt, hown⟩
    | some group =>
      simp only [step, add_item, hf]
      refine ⟨hnd, hlt, ?_⟩
      intro it hit
      rcases List.mem_append.mp hit with hold | hnew
      · exact hown it hold
      · rw [List.mem_singleton] at hnew
        subst hnew
        have hp := List.find?_some hf
        simp only [Bool.and_eq_true, beq_iff_eq] at hp
        exact ⟨group, List.mem_of_find?_eq_some hf, rfl, hp.2⟩
  | opDeleteItem user gid iid =>
    cases hf : db.items.find?
        (fun it => it.id == iid && it.group_id == gid && it.user_id == user.id) with
    | none => simp only [step, delete_item, hf]; exact ⟨hnd, hlt, hown⟩
    | some it0 =>
      simp only [step, delete_item, hf]
      refine ⟨hnd, hlt, ?_⟩
      intro it hit
      exact hown it ((List.eraseP_sublist _).subset hit)
  | opDeleteGroup user gid =>
    cases hf : db.groups.find? (fun g => g.id == gid && g.user_id == user.id) with
    | none => simp only [step, delete_group, hf]; exact ⟨hnd, hlt, hown⟩
    | some group =>
      simp only [step, delete_group, hf]
      have hgid : group.id = gid := by
        have hp := List.find?_some hf
        simp only [Bool.and_eq_true, beq_iff_eq] at hp
        exact hp.1
      refine ⟨?_, ?_, ?_⟩
      · exact List.Sublist.nodup ((List.eraseP_sublist _).map _) hnd
      · intro g hg
        exact hlt g ((List.eraseP_sublist _).subset hg)
      · intro it hit
        have hne := List.of_mem_filter hit
        have hmem := List.mem_of_mem_filter hit
        obtain ⟨g, hg, h1, h2⟩ := hown it hmem
        have hnotp : ¬ ((fun g : DebtGroup => g.id == gid && g.user_id == user.id) g = true) := by
          simp only [Bool.and_eq_true, beq_iff_eq, not_and]
          intro hgi
          exfalso
          apply (by simpa using hne : it.group_id ≠ group.id)
          rw [← h1, hgi, hgid]
        exact ⟨g, mem_eraseP_keep (fun g => g.id == gid && g.user_id == user.id) hg hnotp,
          h1, h2⟩

/-- The state invariant holds along every request sequence. -/
theorem stateInv_run (ops : List Op) (db : DB) (h : StateInv db) :
    StateInv (ops.foldl step db) := by
  induction ops generalizing db with
  | nil => exact h
  | cons op rest ih => exact ih (step db op) (stateInv_step db op h)

/-- Claim C9: in every reachable state, every item's owning user identifier
equals the owning user identifier of its group — the add-item handler derives
both from the authenticated caller and no operation rewrites either field. -/
theorem reachable_owner_invariant (ops : List Op) : ownerInv (runOps ops) = true := by
  obtain ⟨hnd, -, hown⟩ := stateInv_run ops emptyDb stateInv_empty
  rw [ownerInv, List.all_eq_true]
  intro it hit
  rw [List.all_eq_true]
  intro g hg
  obtain ⟨g2, hg2, hid, huid⟩ := hown it hit
  by_cases hcase : g.id = it.group_id
  · have hgg : g = g2 := List.inj_on_of_nodup_map hnd hg hg2 (hcase.trans hid.symm)
    rw [hgg]
    simp [huid]
  · simp [hcase]
